import Mathlib

set_option maxRecDepth 4000

/-!
Verification of the caching subsystem of a media-download web service
(`app.py`): cache-key derivation (MD5 of the locator), on-disk artifact
stores for audio and video, size-triggered whole-cache eviction, the
download/publish paths, and the HTTP endpoint wrappers.

The filesystem is modelled as explicit state (a list of file entries per
cache directory); the external extractor (yt-dlp), the search API and the
fallible filesystem moves/copies are parameters (oracles) of the model.
Machine-level MD5 is implemented over `Nat` with explicit reduction
modulo 2^32, matching `hashlib.md5(...).hexdigest()`.
-/

namespace MD5

/-- Reduce a `Nat` to a 32-bit word. -/
def w32 (x : Nat) : Nat := x % 4294967296

/-- Left-rotate a 32-bit word by `s` bits (`0 < s < 32`). -/
def rotl (x s : Nat) : Nat := w32 (x <<< s) ||| (x >>> (32 - s))

/-- Bitwise complement on 32-bit words. -/
def compl32 (x : Nat) : Nat := 4294967295 ^^^ x

def fF (b c d : Nat) : Nat := (b &&& c) ||| (compl32 b &&& d)
def fG (b c d : Nat) : Nat := (d &&& b) ||| (compl32 d &&& c)
def fH (b c d : Nat) : Nat := b ^^^ c ^^^ d
def fI (b c d : Nat) : Nat := c ^^^ (b ||| compl32 d)

/-- Per-round left-rotation amounts. -/
def sTable : List Nat :=
  [7, 12, 17, 22, 7, 12, 17, 22, 7, 12, 17, 22, 7, 12, 17, 22,
   5, 9, 14, 20, 5, 9, 14, 20, 5, 9, 14, 20, 5, 9, 14, 20,
   4, 11, 16, 23, 4, 11, 16, 23, 4, 11, 16, 23, 4, 11, 16, 23,
   6, 10, 15, 21, 6, 10, 15, 21, 6, 10, 15, 21, 6, 10, 15, 21]

/-- Round constants: `floor(2^32 * abs(sin(i+1)))`. -/
def kTable : List Nat :=
  [3614090360, 3905402710, 606105819, 3250441966,
   4118548399, 1200080426, 2821735955, 4249261313,
   1770035416, 2336552879, 4294925233, 2304563134,
   1804603682, 4254626195, 2792965006, 1236535329,
   4129170786, 3225465664, 643717713, 3921069994,
   3593408605, 38016083, 3634488961, 3889429448,
   568446438, 3275163606, 4107603335, 1163531501,
   2850285829, 4243563512, 1735328473, 2368359562,
   4294588738, 2272392833, 1839030562, 4259657740,
   2763975236, 1272893353, 4139469664, 3200236656,
   681279174, 3936430074, 3572445317, 76029189,
   3654602809, 3873151461, 530742520, 3299628645,
   4096336452, 1126891415, 2878612391, 4237533241,
   1700485571, 2399980690, 4293915773, 2240044497,
   1873313359, 4264355552, 2734768916, 1309151649,
   4149444226, 3174756917, 718787259, 3951481745]

structure Digest where
  a : Nat
  b : Nat
  c : Nat
  d : Nat
deriving Repr, DecidableEq

def initDigest : Digest := ⟨1732584193, 4023233417, 2562383102, 271733878⟩

/-- Little-endian byte decomposition of `n`, `count` bytes. -/
def leBytes : Nat → Nat → List Nat
  | _, 0 => []
  | n, Nat.succ k => n % 256 :: leBytes (n / 256) k

/-- Number of zero padding bytes after the 0x80 marker. -/
def zeroPadCount (len : Nat) : Nat := (64 + 56 - ((len + 1) % 64)) % 64

/-- MD5 message padding: 0x80, zeros to 56 mod 64, 8-byte LE bit length. -/
def padMsg (msg : List Nat) : List Nat :=
  msg ++ [128] ++ List.replicate (zeroPadCount msg.length) 0 ++ leBytes (8 * msg.length) 8

/-- Group 4 consecutive bytes into little-endian 32-bit words. -/
def bytesToWordsLE : List Nat → List Nat
  | b0 :: b1 :: b2 :: b3 :: rest =>
      (b0 + 256 * b1 + 65536 * b2 + 16777216 * b3) :: bytesToWordsLE rest
  | _ => []

/-- One of the 64 MD5 rounds over message words `m`. -/
def mixRound (m : List Nat) (st : Digest) (i : Nat) : Digest :=
  let f :=
    if i < 16 then fF st.b st.c st.d
    else if i < 32 then fG st.b st.c st.d
    else if i < 48 then fH st.b st.c st.d
    else fI st.b st.c st.d
  let g :=
    if i < 16 then i
    else if i < 32 then (5 * i + 1) % 16
    else if i < 48 then (3 * i + 5) % 16
    else (7 * i) % 16
  let t := w32 (f + st.a + kTable.getD i 0 + m.getD g 0)
  ⟨st.d, w32 (st.b + rotl t (sTable.getD i 0)), st.b, st.c⟩

/-- Process one 64-byte chunk. -/
def processChunk (st : Digest) (chunk : List Nat) : Digest :=
  let m := bytesToWordsLE chunk
  let r := (List.range 64).foldl (mixRound m) st
  ⟨w32 (st.a + r.a), w32 (st.b + r.b), w32 (st.c + r.c), w32 (st.d + r.d)⟩

/-- Split a list into 64-byte chunks; the fuel argument (instantiated with
the list length, an upper bound on the number of chunks) keeps the
recursion structural. -/
def chunks64Go : Nat → List Nat → List (List Nat)
  | 0, _ => []
  | _, [] => []
  | Nat.succ fuelRem, c :: rest =>
      (c :: rest).take 64 :: chunks64Go fuelRem ((c :: rest).drop 64)

/-- Split a padded message into 64-byte chunks. -/
def chunks64 (l : List Nat) : List (List Nat) :=
  chunks64Go l.length l

def hexDigit (n : Nat) : Char :=
  if n < 10 then Char.ofNat (48 + n) else Char.ofNat (87 + n)

def byteHex (b : Nat) : List Char := [hexDigit (b / 16), hexDigit (b % 16)]

def digestBytes (st : Digest) : List Nat :=
  leBytes st.a 4 ++ leBytes st.b 4 ++ leBytes st.c 4 ++ leBytes st.d 4

/-- MD5 of a byte list, as the lowercase 32-character hex string
(`hashlib.md5(bytes).hexdigest()`). -/
def md5Hex (msg : List Nat) : String :=
  let st := (chunks64 (padMsg msg)).foldl processChunk initDigest
  String.mk ((digestBytes st).foldr (fun b acc => byteHex b ++ acc) [])

end MD5

/-- UTF-8 encoding of one code point. -/
def charUtf8 (n : Nat) : List Nat :=
  if n < 128 then [n]
  else if n < 2048 then [192 + n / 64, 128 + n % 64]
  else if n < 65536 then [224 + n / 4096, 128 + (n / 64) % 64, 128 + n % 64]
  else [240 + n / 262144, 128 + (n / 4096) % 64, 128 + (n / 64) % 64, 128 + n % 64]

/-- UTF-8 bytes of a string (`str.encode('utf-8')`). -/
def utf8Bytes (s : String) : List Nat :=
  s.data.foldr (fun c acc => charUtf8 c.toNat ++ acc) []

/-- `get_cache_key` (app.py line 172): MD5 hex digest of the UTF-8 encoded
video URL. -/
def get_cache_key (video_url : String) : String :=
  MD5.md5Hex (utf8Bytes video_url)

/-- Cache key used by `download_video` (app.py line 274): MD5 hex digest of
the URL with the suffix `_video` appended before hashing. -/
def video_cache_key (video_url : String) : String :=
  MD5.md5Hex (utf8Bytes (video_url ++ "_video"))

/-! ## Filesystem model

A cache directory is a flat list of file entries (the code only ever puts
regular files named `{key}.{ext}` at the top level of `/tmp/cache` and
`/tmp/cache_video`). `mtime` records when the entry was written; the code
under verification never reads it, which is itself one of the verified
facts (no TTL on artifact entries). -/

structure FileEntry where
  name : String
  size : Nat
  mtime : Nat
deriving Repr, DecidableEq

structure CacheState where
  cacheDir : List FileEntry
  cacheVideoDir : List FileEntry
deriving Repr, DecidableEq

/-- `MAX_CACHE_SIZE` (app.py line 145): 500 MB. -/
def MAX_CACHE_SIZE : Nat := 500 * 1024 * 1024

def CACHE_DIR : String := "/tmp/cache"
def CACHE_VIDEO_DIR : String := "/tmp/cache_video"

/-- `get_directory_size` (app.py lines 175-182): sum of the sizes of the
regular files under a directory. -/
def get_directory_size (files : List FileEntry) : Nat :=
  files.foldl (fun acc f => acc + f.size) 0

/-- Aggregate size measured by `check_cache_size_and_cleanup`
(app.py line 185): audio dir plus video dir. -/
def totalCacheSize (s : CacheState) : Nat :=
  get_directory_size s.cacheDir + get_directory_size s.cacheVideoDir

/-- `check_cache_size_and_cleanup` (app.py lines 184-193): when the
aggregate size strictly exceeds `MAX_CACHE_SIZE`, attempt `os.remove` on
every file in both cache directories, swallowing each failure
(`except Exception: pass`, app.py lines 190-193). `removeFails` is the
oracle saying which removals raise: exactly the files whose removal fails
survive the pass. At or below the ceiling, nothing is touched. -/
def check_cache_size_and_cleanup (removeFails : FileEntry → Bool) (s : CacheState) :
    CacheState :=
  if totalCacheSize s > MAX_CACHE_SIZE then
    ⟨s.cacheDir.filter removeFails, s.cacheVideoDir.filter removeFails⟩
  else s

/-- `glob.glob(os.path.join(dir, name))` for a literal name: the first (only)
entry with that exact name, if any. -/
def findFile (files : List FileEntry) (name : String) : Option FileEntry :=
  files.find? (fun f => f.name == name)

/-- `shutil.move`/`shutil.copy2` to an existing destination overwrites it:
insert `f`, dropping any previous entry with the same name. -/
def putFile (files : List FileEntry) (f : FileEntry) : List FileEntry :=
  f :: files.filter (fun g => g.name != f.name)

def audioFileName (key : String) : String := key ++ ".webm"

def audioCachedPath (key : String) : String := CACHE_DIR ++ "/" ++ audioFileName key

def videoFileName (key : String) : String := key ++ ".mp4"

def videoCachedPath (key : String) : String := CACHE_VIDEO_DIR ++ "/" ++ videoFileName key

/-! ## Download paths

The external extractor (`ydl.extract_info` + the produced temp file) is an
oracle `Except String Nat`: an error message, or the byte size of the file
it produced in the staging directory. Filesystem moves/copies can fail;
their outcomes are oracle booleans. `shutil.move` is modelled as atomic
(succeeds completely or leaves the destination untouched); a failing
`shutil.copy2` may leave `copyWritten` bytes at the destination, since it
copies in chunks directly into the destination file. -/

structure FsOracle where
  moveOk : Bool
  fallbackFound : Bool
  move2Ok : Bool
deriving Repr, DecidableEq

structure VideoFsOracle where
  candidatesFound : Bool
  prepareOk : Bool
  moveOk : Bool
  copyOk : Bool
  copyWritten : Nat
  removeOk : Bool
deriving Repr, DecidableEq

deriving instance DecidableEq for Except

structure FetchResult where
  outcome : Except String String
  state : CacheState
  extractorInvoked : Bool
deriving Repr, DecidableEq

/-- `download_audio` (app.py lines 241-267). Steps: cache-hit check via
glob on `{key}.webm`; on miss, invoke the extractor (exceptions propagate
with the store untouched); move the produced file to the cache path; if
that move raises, re-glob the staging dir for `{unique_id}.*` (raise
"no file produced" if empty) and move again; finally run
`check_cache_size_and_cleanup` and return the cache path. -/
def download_audio (extract : Except String Nat) (o : FsOracle)
    (removeFails : FileEntry → Bool) (now : Nat)
    (video_url : String) (s : CacheState) : FetchResult :=
  let cache_key := get_cache_key video_url
  match findFile s.cacheDir (audioFileName cache_key) with
  | some _ => ⟨.ok (audioCachedPath cache_key), s, false⟩
  | none =>
    match extract with
    | .error e => ⟨.error e, s, true⟩
    | .ok dlSize =>
      if o.moveOk then
        let s1 : CacheState :=
          ⟨putFile s.cacheDir ⟨audioFileName cache_key, dlSize, now⟩, s.cacheVideoDir⟩
        ⟨.ok (audioCachedPath cache_key), check_cache_size_and_cleanup removeFails s1, true⟩
      else if o.fallbackFound then
        if o.move2Ok then
          let s1 : CacheState :=
            ⟨putFile s.cacheDir ⟨audioFileName cache_key, dlSize, now⟩, s.cacheVideoDir⟩
          ⟨.ok (audioCachedPath cache_key), check_cache_size_and_cleanup removeFails s1, true⟩
        else ⟨.error "move failed", s, true⟩
      else ⟨.error "Audio download failed: no file produced", s, true⟩

/-- `download_video` (app.py lines 269-322). Steps: cache-hit check via
glob on `{key}.mp4` (key hashes `url + "_video"`); on miss, invoke the
extractor; locate the produced file (glob, else `prepare_filename`, else
raise "no file produced"); `shutil.move` it to the cache path, and if the
move raises fall back to `shutil.copy2` + best-effort `os.remove` of the
source; a raising `copy2` propagates and may leave a partial destination
file; finally clean the staging dir, run `check_cache_size_and_cleanup`
and return the cache path. -/
def download_video (extract : Except String Nat) (o : VideoFsOracle)
    (removeFails : FileEntry → Bool) (now : Nat)
    (video_url : String) (s : CacheState) : FetchResult :=
  let cache_key := video_cache_key video_url
  match findFile s.cacheVideoDir (videoFileName cache_key) with
  | some _ => ⟨.ok (videoCachedPath cache_key), s, false⟩
  | none =>
    match extract with
    | .error e => ⟨.error e, s, true⟩
    | .ok dlSize =>
      if ¬ o.candidatesFound ∧ ¬ o.prepareOk then
        ⟨.error "Video download failed: no file produced", s, true⟩
      else if o.moveOk then
        let s1 : CacheState :=
          ⟨s.cacheDir, putFile s.cacheVideoDir ⟨videoFileName cache_key, dlSize, now⟩⟩
        ⟨.ok (videoCachedPath cache_key), check_cache_size_and_cleanup removeFails s1, true⟩
      else if o.copyOk then
        let s1 : CacheState :=
          ⟨s.cacheDir, putFile s.cacheVideoDir ⟨videoFileName cache_key, dlSize, now⟩⟩
        ⟨.ok (videoCachedPath cache_key), check_cache_size_and_cleanup removeFails s1, true⟩
      else
        let s1 : CacheState :=
          ⟨s.cacheDir,
           putFile s.cacheVideoDir ⟨videoFileName cache_key, min o.copyWritten dlSize, now⟩⟩
        ⟨.error "copy failed", s1, true⟩

/-! ## Python string/truthiness helpers -/

/-- Python truthiness of an optional string: `None` and `""` are falsy. -/
def pyTruthy : Option String → Bool
  | none => false
  | some s => s ≠ ""

/-- Substring test on character lists (python `pat in s` for str). -/
def containsSub (hay pat : List Char) : Bool :=
  match hay with
  | [] => pat.isEmpty
  | c :: t => List.isPrefixOf pat (c :: t) || containsSub t pat

/-- Python `pat in s` on strings. -/
def pyIn (pat s : String) : Bool := containsSub s.data pat.data

/-- Python `str.lower()` (ASCII case mapping suffices for the URLs here). -/
def pyLower (s : String) : String := String.mk (s.data.map Char.toLower)

/-- `is_kick_url` (app.py lines 159-160). -/
def is_kick_url (url : String) : Bool := pyIn "kick.com/" (pyLower url)

/-! ## HTTP layer model

A response is a status code and a body. Oracles stand in for the search
API, the Spotify resolver and the metadata extraction.  The message of a
python `TypeError` raised by `"spotify.com" in None` is the literal
`str(e)` the generic `except` handler serialises into the JSON error. -/

inductive HttpBody where
  | jsonErr (msg : String)
  | kick (stream : String) (title : Option String) (isLive : Bool)
  | yt (audio : String) (cached : Bool) (title : Option String)
  | file (path : String)
deriving Repr, DecidableEq

def noneTypeErr : String := "argument of type \x27NoneType\x27 is not iterable"

def keyErrLink : String := "\x27link\x27"

structure SpotifyOracle where
  status : Nat
  link : Option String
deriving Repr, DecidableEq

/-- `resolve_spotify_link` (app.py lines 202-211): for spotify URLs, query
the search API; non-200 or missing link raise; otherwise return the
resolved link. Non-spotify URLs pass through. -/
def resolve_spotify_link (o : SpotifyOracle) (url : String) : Except String String :=
  if pyIn "spotify.com" url then
    if o.status ≠ 200 then .error "Failed to fetch search results for Spotify"
    else
      match o.link with
      | none => .error "No YouTube result for Spotify"
      | some l => .ok l
  else .ok url

structure KickInfo where
  url : Option String
  title : Option String
  is_live : Option Bool
deriving Repr, DecidableEq

structure YtInfo where
  formats : List (String × Option String)
  title : Option String
deriving Repr, DecidableEq

structure CdnOracle where
  searchLink : Option String
  spotify : SpotifyOracle
  kickInfo : Except String KickInfo
  ytInfo : Except String YtInfo
deriving Repr, DecidableEq

/-- Spotify-resolution step shared by the endpoints (app.py lines 366-367,
387-388, 408-409): `if "spotify.com" in video_url: video_url =
resolve_spotify_link(video_url)`, where `video_url` may be python `None`
(raising `TypeError`, caught by the generic handler). -/
def spotifyStep (o : SpotifyOracle) : Option String → Except String String
  | none => .error noneTypeErr
  | some u => if pyIn "spotify.com" u then resolve_spotify_link o u else .ok u

/-- `get_cdn_link`, the `/down` endpoint (app.py lines 398-455). Note: the
title branch here does not check the search status; a missing `"link"`
key raises `KeyError` caught by the generic handler. The `cached` flag is
computed purely from the presence of `{key}.webm` in the audio cache dir
(no age/TTL check), and the stream link always comes from a fresh
extractor invocation. -/
def cdnResolveUrl (o : CdnOracle) (url title : Option String) :
    Except String (Option String) :=
  if pyTruthy title ∧ ¬ pyTruthy url then
    match o.searchLink with
    | none => .error keyErrLink
    | some l => .ok (some l)
  else .ok url

/-- The Kick path of `/down` (app.py lines 412-425). -/
def kickBranch (kickInfo : Except String KickInfo) : Nat × HttpBody :=
  match kickInfo with
  | .error e => (500, .jsonErr e)
  | .ok info =>
    match info.url with
    | none => (404, .jsonErr "No HLS stream found")
    | some hls => (200, .kick hls info.title (info.is_live.getD true))

/-- The YouTube path of `/down` (app.py lines 427-452): `cached` is the
bare presence of `{key}.webm` in the audio cache dir, and the link comes
from a fresh metadata extraction. -/
def ytBranch (o : CdnOracle) (u : String) (s : CacheState) : Nat × HttpBody :=
  match o.ytInfo with
  | .error e => (500, .jsonErr e)
  | .ok info =>
    match info.formats.find? (fun f => f.1 == "249") with
    | none => (404, .jsonErr "itag 249 not available")
    | some fmt =>
      match fmt.2 with
      | none => (404, .jsonErr "itag 249 not available")
      | some audioUrl =>
        (200, .yt audioUrl ((findFile s.cacheDir (audioFileName (get_cache_key u))).isSome)
          info.title)

def get_cdn_link (o : CdnOracle) (url title : Option String) (s : CacheState) :
    Nat × HttpBody :=
  match cdnResolveUrl o url title with
  | .error e => (500, .jsonErr e)
  | .ok vu =>
    match spotifyStep o.spotify vu with
    | .error e => (500, .jsonErr e)
    | .ok u =>
      if is_kick_url u then kickBranch o.kickInfo
      else ytBranch o u s

structure EndpointOracle where
  searchStatus : Nat
  searchLink : Option String
  spotify : SpotifyOracle
deriving Repr, DecidableEq

/-- Tail shared by `/download` and `/vdown` after the title-resolution
branch: spotify check (TypeError on `None`), then the downloader, then
`send_file`; any exception becomes a 500 JSON error. -/
def endpointTail (o : EndpointOracle) (dl : String → Except String String)
    (video_url : Option String) : Nat × HttpBody :=
  match spotifyStep o.spotify video_url with
  | .error e => (500, .jsonErr e)
  | .ok u =>
    match dl u with
    | .error e => (500, .jsonErr e)
    | .ok p => (200, .file p)

/-- `download_audio_endpoint`, the `/download` endpoint (app.py lines
375-394), parametric in the downloader it delegates to. -/
def download_audio_endpoint (o : EndpointOracle) (dl : String → Except String String)
    (url title : Option String) : Nat × HttpBody :=
  if pyTruthy title ∧ ¬ pyTruthy url then
    if o.searchStatus ≠ 200 then (500, .jsonErr "Search API error")
    else
      match o.searchLink with
      | none => (500, .jsonErr keyErrLink)
      | some l => endpointTail o dl (some l)
  else endpointTail o dl url

/-- `download_video_endpoint`, the `/vdown` endpoint (app.py lines
354-373); same shape as `/download` with the video downloader. -/
def download_video_endpoint (o : EndpointOracle) (dl : String → Except String String)
    (url title : Option String) : Nat × HttpBody :=
  if pyTruthy title ∧ ¬ pyTruthy url then
    if o.searchStatus ≠ 200 then (500, .jsonErr "Search API error")
    else
      match o.searchLink with
      | none => (500, .jsonErr keyErrLink)
      | some l => endpointTail o dl (some l)
  else endpointTail o dl url

/-! ## Interleaved execution of concurrent artifact-fetch callers

Neither `download_audio` (app.py lines 241-267) nor `download_video`
(app.py lines 269-322) holds a lock, and both perform the same sequence
of steps on the shared filesystem: a cache-miss check (lines 243-245 /
275-277), the extractor invocation (lines 250-251 / 286-287) and the
publish move (lines 255-257 / 303-305) are separate steps between which
other threads may run, so the machine below models concurrent callers of
either variant for one key.  Each caller is a program counter; the shared
state is whether the canonical `{key}.{ext}` file is present and how many
times the extractor has been invoked.  A schedule is the list of caller
indices in execution order (an out-of-range index is a no-op).  All
callers address the same URL (same key); extraction succeeds. -/

inductive DAPc where
  | start
  | toExtract
  | toPublish
  | doneHit
  | donePublished
deriving Repr, DecidableEq

structure DAState where
  cachePresent : Bool
  extractorCalls : Nat
  pcs : List DAPc
deriving Repr, DecidableEq

/-- One atomic step of caller `i`. -/
def daStep (s : DAState) (i : Nat) : DAState :=
  match s.pcs.get? i with
  | none => s
  | some .start =>
      { s with pcs := s.pcs.set i (if s.cachePresent then .doneHit else .toExtract) }
  | some .toExtract =>
      { s with extractorCalls := s.extractorCalls + 1, pcs := s.pcs.set i .toPublish }
  | some .toPublish =>
      { s with cachePresent := true, pcs := s.pcs.set i .donePublished }
  | some .doneHit => s
  | some .donePublished => s

/-- Run a schedule from a state. -/
def daRun (sched : List Nat) (s : DAState) : DAState :=
  sched.foldl daStep s

/-- Initial state: no cached artifact, `n` callers about to run. -/
def daInit (n : Nat) : DAState :=
  ⟨false, 0, List.replicate n .start⟩

/-! ## Helper lemmas -/

theorem foldl_size_acc (l : List FileEntry) (a : Nat) :
    l.foldl (fun acc f => acc + f.size) a = a + l.foldl (fun acc f => acc + f.size) 0 := by
  induction l generalizing a with
  | nil => simp
  | cons f t ih =>
    simp only [List.foldl]
    rw [ih (a + f.size), ih (0 + f.size)]
    omega

theorem get_directory_size_cons (f : FileEntry) (l : List FileEntry) :
    get_directory_size (f :: l) = f.size + get_directory_size l := by
  simp only [get_directory_size, List.foldl]
  rw [foldl_size_acc l (0 + f.size)]
  omega

theorem filter_of_findFile_none (files : List FileEntry) (name : String)
    (h : findFile files name = none) :
    files.filter (fun g => g.name != name) = files := by
  rw [List.filter_eq_self]
  intro a ha
  have hn := List.find?_eq_none.mp h a ha
  simpa using hn

theorem filter_eq_nil_of_false (rf : FileEntry → Bool) (l : List FileEntry)
    (h : ∀ f, rf f = false) : l.filter rf = [] := by
  induction l with
  | nil => rfl
  | cons a t ih => simp [List.filter_cons, h a, ih]

theorem download_audio_hit (extract : Except String Nat) (o : FsOracle)
    (rf : FileEntry → Bool) (now : Nat) (url : String) (s : CacheState)
    (h : (findFile s.cacheDir (audioFileName (get_cache_key url))).isSome) :
    download_audio extract o rf now url s =
      ⟨.ok (audioCachedPath (get_cache_key url)), s, false⟩ := by
  obtain ⟨f, hf⟩ := Option.isSome_iff_exists.mp h
  simp only [download_audio, hf]

theorem download_video_hit (extract : Except String Nat) (o : VideoFsOracle)
    (rf : FileEntry → Bool) (now : Nat) (url : String) (s : CacheState)
    (h : (findFile s.cacheVideoDir (videoFileName (video_cache_key url))).isSome) :
    download_video extract o rf now url s =
      ⟨.ok (videoCachedPath (video_cache_key url)), s, false⟩ := by
  obtain ⟨f, hf⟩ := Option.isSome_iff_exists.mp h
  simp only [download_video, hf]

theorem download_audio_ok_path (extract : Except String Nat) (o : FsOracle)
    (rf : FileEntry → Bool) (now : Nat) (url : String) (s : CacheState) (p : String)
    (h : (download_audio extract o rf now url s).outcome = .ok p) :
    p = audioCachedPath (get_cache_key url) := by
  simp only [download_audio] at h
  cases hf : findFile s.cacheDir (audioFileName (get_cache_key url)) with
  | some f =>
    simp only [hf] at h
    exact (Except.ok.inj h).symm
  | none =>
    simp only [hf] at h
    cases extract with
    | error e => simp at h
    | ok n =>
      repeat' split at h
      all_goals simp_all

theorem download_video_ok_path (extract : Except String Nat) (o : VideoFsOracle)
    (rf : FileEntry → Bool) (now : Nat) (url : String) (s : CacheState) (p : String)
    (h : (download_video extract o rf now url s).outcome = .ok p) :
    p = videoCachedPath (video_cache_key url) := by
  simp only [download_video] at h
  cases hf : findFile s.cacheVideoDir (videoFileName (video_cache_key url)) with
  | some f =>
    simp only [hf] at h
    exact (Except.ok.inj h).symm
  | none =>
    simp only [hf] at h
    cases extract with
    | error e => simp at h
    | ok n =>
      repeat' split at h
      all_goals simp_all

/-! ## Claim C4 -/

/-- Counterexample to claim C4: the eviction pass swallows per-file
`os.remove` failures (`except Exception: pass`, app.py lines 190-193), so
a completed pass does not guarantee the size bound: with a single 600 MB
file whose removal raises, the pass returns with the aggregate size still
strictly above the 500 MB ceiling. -/
theorem c4_counterexample :
    totalCacheSize (check_cache_size_and_cleanup (fun _ => true)
      ⟨[⟨"k.webm", 600000000, 0⟩], []⟩) > MAX_CACHE_SIZE := by
  decide

/-- Claim C4 as amended: after a completed eviction pass in which every
attempted deletion succeeds, the aggregate on-disk size of the cache
directories is at most the configured ceiling; a swallowed `os.remove`
failure can leave it above the ceiling (see the counterexample). -/
theorem c4_eviction_respects_ceiling (rf : FileEntry → Bool) (s : CacheState)
    (hrf : ∀ f, rf f = false) :
    totalCacheSize (check_cache_size_and_cleanup rf s) ≤ MAX_CACHE_SIZE := by
  unfold check_cache_size_and_cleanup
  by_cases h : totalCacheSize s > MAX_CACHE_SIZE
  · simp only [h, if_true]
    rw [filter_eq_nil_of_false rf s.cacheDir hrf,
      filter_eq_nil_of_false rf s.cacheVideoDir hrf]
    simp [totalCacheSize, get_directory_size, MAX_CACHE_SIZE]
  · simp only [h, if_false]
    omega

theorem c4_eviction_respects_ceiling_witness :
    totalCacheSize (check_cache_size_and_cleanup (fun _ => false)
      ⟨[⟨"k.webm", 600000000, 0⟩], []⟩) ≤ MAX_CACHE_SIZE :=
  c4_eviction_respects_ceiling (fun _ => false) ⟨[⟨"k.webm", 600000000, 0⟩], []⟩
    (fun _ => rfl)

/-! ## Claim C3 -/

/-- Counterexample to claim C3: per-file deletion failures are swallowed
(app.py lines 190-193), so an over-ceiling pass does not always delete
every entry: with one 600 MB file whose `os.remove` raises, the completed
pass leaves the file in place, the subsequent size measurement is nonzero,
and a lookup for the surviving name still hits. -/
theorem c3_counterexample :
    totalCacheSize (⟨[⟨"k.webm", 600000000, 0⟩], []⟩ : CacheState) > MAX_CACHE_SIZE ∧
    check_cache_size_and_cleanup (fun f => f.name == "k.webm")
        ⟨[⟨"k.webm", 600000000, 0⟩], []⟩ = ⟨[⟨"k.webm", 600000000, 0⟩], []⟩ ∧
    totalCacheSize (check_cache_size_and_cleanup (fun f => f.name == "k.webm")
        ⟨[⟨"k.webm", 600000000, 0⟩], []⟩) ≠ 0 ∧
    (findFile (check_cache_size_and_cleanup (fun f => f.name == "k.webm")
        ⟨[⟨"k.webm", 600000000, 0⟩], []⟩).cacheDir "k.webm").isSome := by
  refine ⟨by decide, by decide, by decide, by decide⟩

/-- Claim C3 as amended: when the aggregate size strictly exceeds the
500 MB ceiling, the next eviction pass attempts to delete every entry in
both artifact directories, swallowing per-file failures, and exactly the
entries whose deletion fails survive; in particular, when every deletion
succeeds, both directories are emptied, a subsequent size measurement
returns 0 and lookups for previously cached keys miss. When the aggregate
size does not exceed the ceiling, the pass deletes nothing. -/
theorem c3_whole_flush (rf : FileEntry → Bool) (s : CacheState) :
    (totalCacheSize s > MAX_CACHE_SIZE →
      check_cache_size_and_cleanup rf s =
        ⟨s.cacheDir.filter rf, s.cacheVideoDir.filter rf⟩ ∧
      ((∀ f, rf f = false) →
        check_cache_size_and_cleanup rf s = ⟨[], []⟩ ∧
        totalCacheSize (check_cache_size_and_cleanup rf s) = 0 ∧
        ∀ n, findFile (check_cache_size_and_cleanup rf s).cacheDir n = none ∧
          findFile (check_cache_size_and_cleanup rf s).cacheVideoDir n = none)) ∧
    (¬ totalCacheSize s > MAX_CACHE_SIZE → check_cache_size_and_cleanup rf s = s) := by
  constructor
  · intro h
    have hc : check_cache_size_and_cleanup rf s =
        ⟨s.cacheDir.filter rf, s.cacheVideoDir.filter rf⟩ := by
      unfold check_cache_size_and_cleanup
      rw [if_pos h]
    refine ⟨hc, fun hrf => ?_⟩
    have hempty : check_cache_size_and_cleanup rf s = ⟨[], []⟩ := by
      rw [hc, filter_eq_nil_of_false rf s.cacheDir hrf,
        filter_eq_nil_of_false rf s.cacheVideoDir hrf]
    refine ⟨hempty, ?_, ?_⟩
    · rw [hempty]; rfl
    · intro n; rw [hempty]; exact ⟨rfl, rfl⟩
  · intro h
    unfold check_cache_size_and_cleanup
    rw [if_neg h]

def overLimitState : CacheState := ⟨[⟨"k.webm", 600000000, 0⟩], []⟩

theorem c3_whole_flush_witness :
    totalCacheSize overLimitState > MAX_CACHE_SIZE ∧
    (check_cache_size_and_cleanup (fun _ => false) overLimitState = ⟨[], []⟩ ∧
     totalCacheSize (check_cache_size_and_cleanup (fun _ => false) overLimitState) = 0 ∧
     ∀ n, findFile (check_cache_size_and_cleanup
         (fun _ => false) overLimitState).cacheDir n = none ∧
       findFile (check_cache_size_and_cleanup
         (fun _ => false) overLimitState).cacheVideoDir n = none) :=
  ⟨by decide,
   ((c3_whole_flush (fun _ => false) overLimitState).1 (by decide)).2 (fun _ => rfl)⟩

/-! ## Claim C10 -/

/-- Claim C10: a GET request to `/download` or `/vdown` that supplies
neither the `url` nor the `title` query parameter yields an HTTP 500
response with a JSON error body (the `None` url raises a `TypeError`
caught by the generic handler), not a 400 validation response. -/
theorem c10_missing_params_500 (o : EndpointOracle)
    (dlA dlV : String → Except String String) :
    download_audio_endpoint o dlA none none = (500, .jsonErr noneTypeErr) ∧
    download_video_endpoint o dlV none none = (500, .jsonErr noneTypeErr) := by
  constructor <;> rfl

/-! ## Claim C5 -/

def emptyFileState : CacheState :=
  ⟨[⟨audioFileName (get_cache_key "res://abc"), 0, 0⟩], []⟩

def emptyVideoFileState : CacheState :=
  ⟨[], [⟨videoFileName (video_cache_key "res://abc"), 0, 0⟩]⟩

/-- Counterexample to claim C5: the artifact lookup is a bare glob with no
size check. With a zero-byte `{key}.webm` present, `download_audio`
returns the canonical path as a cache hit (without re-downloading), even
though the file is empty — so "returns the path only if the file is
non-empty" is false, and a successful fetch does not guarantee size
> 0. -/
theorem c5_counterexample :
    download_audio (.error "extractor unreachable") ⟨true, true, true⟩ (fun _ => false) 0
        "res://abc" emptyFileState =
      ⟨.ok (audioCachedPath (get_cache_key "res://abc")), emptyFileState, false⟩ ∧
    (findFile emptyFileState.cacheDir (audioFileName (get_cache_key "res://abc"))).isSome ∧
    get_directory_size emptyFileState.cacheDir = 0 := by
  refine ⟨?_, by decide, rfl⟩
  exact download_audio_hit _ _ _ _ _ _ (by decide)

/-- Claim C5 as amended, for both variants: the lookup returns the
canonical path for (K,V) exactly when a file of the canonical name is
present in the variant directory, with no emptiness check; and a
successful publish stores a file whose size is whatever the extractor
produced (zero included), the code performing no size validation. -/
theorem c5_amended_lookup_presence_only :
    (∀ url s extract o rf now,
        (findFile s.cacheDir (audioFileName (get_cache_key url))).isSome →
        download_audio extract o rf now url s =
          ⟨.ok (audioCachedPath (get_cache_key url)), s, false⟩) ∧
    (∀ url s extract o rf now,
        (findFile s.cacheVideoDir (videoFileName (video_cache_key url))).isSome →
        download_video extract o rf now url s =
          ⟨.ok (videoCachedPath (video_cache_key url)), s, false⟩) ∧
    (∀ url s n (o : FsOracle) rf now,
        findFile s.cacheDir (audioFileName (get_cache_key url)) = none →
        o.moveOk = true →
        totalCacheSize s + n ≤ MAX_CACHE_SIZE →
        findFile (download_audio (.ok n) o rf now url s).state.cacheDir
            (audioFileName (get_cache_key url)) =
          some ⟨audioFileName (get_cache_key url), n, now⟩) ∧
    (∀ url s n (o : VideoFsOracle) rf now,
        findFile s.cacheVideoDir (videoFileName (video_cache_key url)) = none →
        o.candidatesFound = true →
        o.moveOk = true →
        totalCacheSize s + n ≤ MAX_CACHE_SIZE →
        findFile (download_video (.ok n) o rf now url s).state.cacheVideoDir
            (videoFileName (video_cache_key url)) =
          some ⟨videoFileName (video_cache_key url), n, now⟩) := by
  refine ⟨?_, ?_, ?_, ?_⟩
  · intro url s extract o rf now h
    exact download_audio_hit extract o rf now url s h
  · intro url s extract o rf now h
    exact download_video_hit extract o rf now url s h
  · intro url s n o rf now hmiss hmove hsize
    have hput : putFile s.cacheDir ⟨audioFileName (get_cache_key url), n, now⟩ =
        ⟨audioFileName (get_cache_key url), n, now⟩ :: s.cacheDir := by
      simp only [putFile]
      rw [filter_of_findFile_none s.cacheDir _ hmiss]
    have hle : ¬ totalCacheSize
        ⟨(⟨audioFileName (get_cache_key url), n, now⟩ : FileEntry) :: s.cacheDir,
          s.cacheVideoDir⟩ > MAX_CACHE_SIZE := by
      unfold totalCacheSize at hsize ⊢
      rw [get_directory_size_cons]
      dsimp only
      omega
    simp only [download_audio, hmiss, hmove, if_true, hput]
    unfold check_cache_size_and_cleanup
    rw [if_neg hle]
    unfold findFile
    rw [List.find?_cons_of_pos]
    simp
  · intro url s n o rf now hmiss hcand hmove hsize
    have hput : putFile s.cacheVideoDir ⟨videoFileName (video_cache_key url), n, now⟩ =
        ⟨videoFileName (video_cache_key url), n, now⟩ :: s.cacheVideoDir := by
      simp only [putFile]
      rw [filter_of_findFile_none s.cacheVideoDir _ hmiss]
    have hle : ¬ totalCacheSize
        ⟨s.cacheDir,
          (⟨videoFileName (video_cache_key url), n, now⟩ : FileEntry) ::
            s.cacheVideoDir⟩ > MAX_CACHE_SIZE := by
      unfold totalCacheSize at hsize ⊢
      rw [get_directory_size_cons]
      dsimp only
      omega
    have hguard : ¬ (¬ (o.candidatesFound = true) ∧ ¬ (o.prepareOk = true)) := by
      simp [hcand]
    simp only [download_video, hmiss, hput]
    rw [if_neg hguard, if_pos hmove]
    dsimp only
    unfold check_cache_size_and_cleanup
    rw [if_neg hle]
    unfold findFile
    rw [List.find?_cons_of_pos]
    simp

theorem c5_amended_lookup_presence_only_witness :
    download_audio (.error "extractor unreachable") ⟨true, true, true⟩ (fun _ => false) 0
        "res://abc" emptyFileState =
      ⟨.ok (audioCachedPath (get_cache_key "res://abc")), emptyFileState, false⟩ ∧
    download_video (.error "extractor unreachable") ⟨true, true, true, true, 0, true⟩
        (fun _ => false) 0 "res://abc" emptyVideoFileState =
      ⟨.ok (videoCachedPath (video_cache_key "res://abc")), emptyVideoFileState, false⟩ ∧
    findFile (download_audio (.ok 0) ⟨true, true, true⟩ (fun _ => false) 7 "u"
        ⟨[], []⟩).state.cacheDir (audioFileName (get_cache_key "u")) =
      some ⟨audioFileName (get_cache_key "u"), 0, 7⟩ ∧
    findFile (download_video (.ok 0) ⟨true, true, true, true, 0, true⟩ (fun _ => false) 7
        "u" ⟨[], []⟩).state.cacheVideoDir (videoFileName (video_cache_key "u")) =
      some ⟨videoFileName (video_cache_key "u"), 0, 7⟩ :=
  ⟨c5_amended_lookup_presence_only.1 "res://abc" emptyFileState _ _ _ 0 (by decide),
   c5_amended_lookup_presence_only.2.1 "res://abc" emptyVideoFileState _ _ _ 0 (by decide),
   c5_amended_lookup_presence_only.2.2.1 "u" ⟨[], []⟩ 0 ⟨true, true, true⟩ (fun _ => false)
     7 rfl rfl (by decide),
   c5_amended_lookup_presence_only.2.2.2 "u" ⟨[], []⟩ 0 ⟨true, true, true, true, 0, true⟩
     (fun _ => false) 7 rfl rfl rfl (by decide)⟩

/-! ## Claim C7 -/

/-- Claim C7: when extraction fails, `download_audio` surfaces the failure
to the caller, leaves the artifact store unchanged, and a subsequent call
for the same locator invokes the extractor again (failures are not
cached). -/
theorem c7_extraction_failure_not_cached (o o2 : FsOracle) (rf rf2 : FileEntry → Bool)
    (now now2 : Nat) (url e : String) (extract2 : Except String Nat) (s : CacheState)
    (h : findFile s.cacheDir (audioFileName (get_cache_key url)) = none) :
    download_audio (.error e) o rf now url s = ⟨.error e, s, true⟩ ∧
    (download_audio extract2 o2 rf2 now2 url s).extractorInvoked = true := by
  constructor
  · simp only [download_audio, h]
  · simp only [download_audio, h]
    cases extract2 with
    | error e2 => rfl
    | ok n =>
      repeat' split
      all_goals rfl

theorem c7_extraction_failure_not_cached_witness :
    download_audio (.error "boom") ⟨true, true, true⟩ (fun _ => false) 0 "u" ⟨[], []⟩ =
      ⟨.error "boom", ⟨[], []⟩, true⟩ ∧
    (download_audio (.ok 5) ⟨true, true, true⟩ (fun _ => false) 1 "u"
      ⟨[], []⟩).extractorInvoked = true :=
  c7_extraction_failure_not_cached ⟨true, true, true⟩ ⟨true, true, true⟩
    (fun _ => false) (fun _ => false) 0 1 "u" "boom" (.ok 5) ⟨[], []⟩ rfl

/-! ## Claim C9 -/

/-- Claim C9, for both variants: after a first successful fetch for a
locator, a second sequential fetch with identical arguments — the
published artifact still present (no intervening eviction) — returns the
same cached path with the state unchanged and without invoking the
extractor again. -/
theorem c9_second_call_hits :
    (∀ (e e2 : Except String Nat) (o o2 : FsOracle) (rf rf2 : FileEntry → Bool)
        (now now2 : Nat) (url p : String) (s : CacheState),
      (download_audio e o rf now url s).outcome = .ok p →
      (findFile (download_audio e o rf now url s).state.cacheDir
          (audioFileName (get_cache_key url))).isSome →
      download_audio e2 o2 rf2 now2 url (download_audio e o rf now url s).state =
        ⟨.ok p, (download_audio e o rf now url s).state, false⟩) ∧
    (∀ (e e2 : Except String Nat) (o o2 : VideoFsOracle) (rf rf2 : FileEntry → Bool)
        (now now2 : Nat) (url p : String) (s : CacheState),
      (download_video e o rf now url s).outcome = .ok p →
      (findFile (download_video e o rf now url s).state.cacheVideoDir
          (videoFileName (video_cache_key url))).isSome →
      download_video e2 o2 rf2 now2 url (download_video e o rf now url s).state =
        ⟨.ok p, (download_video e o rf now url s).state, false⟩) := by
  constructor
  · intro e e2 o o2 rf rf2 now now2 url p s h1 h2
    have hp := download_audio_ok_path e o rf now url s p h1
    subst hp
    exact download_audio_hit e2 o2 rf2 now2 url _ h2
  · intro e e2 o o2 rf rf2 now now2 url p s h1 h2
    have hp := download_video_ok_path e o rf now url s p h1
    subst hp
    exact download_video_hit e2 o2 rf2 now2 url _ h2

theorem c9_second_call_hits_witness :
    download_audio (.error "no second extraction") ⟨true, true, true⟩ (fun _ => false) 1 "u"
        (download_audio (.ok 5) ⟨true, true, true⟩ (fun _ => false) 0 "u" ⟨[], []⟩).state =
      ⟨.ok (audioCachedPath (get_cache_key "u")),
       (download_audio (.ok 5) ⟨true, true, true⟩ (fun _ => false) 0 "u" ⟨[], []⟩).state,
       false⟩ ∧
    download_video (.error "no second extraction") ⟨true, true, true, true, 0, true⟩
        (fun _ => false) 1 "u"
        (download_video (.ok 5) ⟨true, true, true, true, 0, true⟩ (fun _ => false) 0 "u"
          ⟨[], []⟩).state =
      ⟨.ok (videoCachedPath (video_cache_key "u")),
       (download_video (.ok 5) ⟨true, true, true, true, 0, true⟩ (fun _ => false) 0 "u"
         ⟨[], []⟩).state, false⟩ :=
  ⟨c9_second_call_hits.1 (.ok 5) (.error "no second extraction") ⟨true, true, true⟩
     ⟨true, true, true⟩ (fun _ => false) (fun _ => false) 0 1 "u"
     (audioCachedPath (get_cache_key "u")) ⟨[], []⟩ rfl (by decide),
   c9_second_call_hits.2 (.ok 5) (.error "no second extraction")
     ⟨true, true, true, true, 0, true⟩ ⟨true, true, true, true, 0, true⟩
     (fun _ => false) (fun _ => false) 0 1 "u"
     (videoCachedPath (video_cache_key "u")) ⟨[], []⟩ rfl (by decide)⟩

/-! ## Claim C6 -/

/-- Counterexample to claim C6: in `download_video`, when the
staging-to-canonical move raises and the fallback `shutil.copy2` also
raises midway (5 of 10 bytes written), the fetch fails to the caller but a
partially-written file of 5 bytes remains at the canonical cache path —
"in no outcome is a corrupt or partially-written file left at the
canonical path" is false. -/
theorem c6_counterexample :
    (download_video (.ok 10) ⟨true, true, false, false, 5, true⟩ (fun _ => false) 0
        "res://abc" ⟨[], []⟩).outcome = .error "copy failed" ∧
    findFile (download_video (.ok 10) ⟨true, true, false, false, 5, true⟩ (fun _ => false)
        0 "res://abc" ⟨[], []⟩).state.cacheVideoDir
        (videoFileName (video_cache_key "res://abc")) =
      some ⟨videoFileName (video_cache_key "res://abc"), 5, 0⟩ ∧
    (5 : Nat) < 10 := by
  refine ⟨rfl, ?_, by decide⟩
  unfold download_video findFile
  simp [putFile]

/-- Claim C6 as amended: on a failed move, `download_video` falls back to
copy-then-delete-source while `download_audio` retries a move on the
re-globbed staging file (no copy fallback); if the fallback also fails the
fetch fails to the caller, but a failed fallback copy may leave a
partially-written file at the canonical cache path (see the
counterexample). -/
theorem c6_amended_publish_fallbacks :
    (∀ url s n (o : VideoFsOracle) rf now,
        findFile s.cacheVideoDir (videoFileName (video_cache_key url)) = none →
        o.candidatesFound = true → (o.moveOk = true ∨ o.copyOk = true) →
        (download_video (.ok n) o rf now url s).outcome =
          .ok (videoCachedPath (video_cache_key url))) ∧
    (∀ url s n (o : VideoFsOracle) rf now,
        findFile s.cacheVideoDir (videoFileName (video_cache_key url)) = none →
        o.candidatesFound = true → o.moveOk = false → o.copyOk = false →
        (download_video (.ok n) o rf now url s).outcome = .error "copy failed") ∧
    (∀ url s n (o : FsOracle) rf now,
        findFile s.cacheDir (audioFileName (get_cache_key url)) = none →
        o.moveOk = false → o.fallbackFound = true → o.move2Ok = true →
        (download_audio (.ok n) o rf now url s).outcome =
          .ok (audioCachedPath (get_cache_key url))) ∧
    (∀ url s n (o : FsOracle) rf now,
        findFile s.cacheDir (audioFileName (get_cache_key url)) = none →
        o.moveOk = false → o.fallbackFound = true → o.move2Ok = false →
        (download_audio (.ok n) o rf now url s).outcome = .error "move failed") := by
  refine ⟨?_, ?_, ?_, ?_⟩
  · intro url s n o rf now hmiss hcand hmc
    simp only [download_video, hmiss, hcand]
    rcases hmc with hm | hc
    · simp [hm]
    · by_cases hm : o.moveOk <;> simp [hm, hc]
  · intro url s n o rf now hmiss hcand hm hc
    simp only [download_video, hmiss, hcand]
    simp [hm, hc]
  · intro url s n o rf now hmiss hm hfb hm2
    simp only [download_audio, hmiss]
    simp [hm, hfb, hm2]
  · intro url s n o rf now hmiss hm hfb hm2
    simp only [download_audio, hmiss]
    simp [hm, hfb, hm2]

theorem c6_amended_publish_fallbacks_witness :
    (download_video (.ok 10) ⟨true, true, true, false, 0, true⟩ (fun _ => false) 0
        "res://abc" ⟨[], []⟩).outcome =
      .ok (videoCachedPath (video_cache_key "res://abc")) ∧
    (download_video (.ok 10) ⟨true, true, false, false, 5, true⟩ (fun _ => false) 1
        "res://abc" ⟨[], []⟩).outcome = .error "copy failed" ∧
    (download_audio (.ok 10) ⟨false, true, true⟩ (fun _ => false) 2 "res://abc"
        ⟨[], []⟩).outcome = .ok (audioCachedPath (get_cache_key "res://abc")) ∧
    (download_audio (.ok 10) ⟨false, true, false⟩ (fun _ => false) 3 "res://abc"
        ⟨[], []⟩).outcome = .error "move failed" :=
  ⟨c6_amended_publish_fallbacks.1 "res://abc" ⟨[], []⟩ 10 ⟨true, true, true, false, 0, true⟩
      (fun _ => false) 0 rfl rfl (Or.inl rfl),
   c6_amended_publish_fallbacks.2.1 "res://abc" ⟨[], []⟩ 10
      ⟨true, true, false, false, 5, true⟩ (fun _ => false) 1 rfl rfl rfl rfl,
   c6_amended_publish_fallbacks.2.2.1 "res://abc" ⟨[], []⟩ 10 ⟨false, true, true⟩
      (fun _ => false) 2 rfl rfl rfl rfl,
   c6_amended_publish_fallbacks.2.2.2 "res://abc" ⟨[], []⟩ 10 ⟨false, true, false⟩
      (fun _ => false) 3 rfl rfl rfl rfl⟩

/-! ## Claim C2 -/

theorem findFile_isSome_congr (l1 l2 : List FileEntry)
    (h : l1.map FileEntry.name = l2.map FileEntry.name) (name : String) :
    (findFile l1 name).isSome = (findFile l2 name).isSome := by
  induction l1 generalizing l2 with
  | nil =>
    cases l2 with
    | nil => rfl
    | cons g u => simp at h
  | cons f t ih =>
    cases l2 with
    | nil => simp at h
    | cons g u =>
      simp only [List.map_cons, List.cons.injEq] at h
      obtain ⟨hn, ht⟩ := h
      unfold findFile at ih ⊢
      cases hb : (f.name == name) with
      | true =>
        rw [List.find?_cons_of_pos _ (by simpa using hb),
          List.find?_cons_of_pos _ (by simp [← hn, hb])]
        rfl
      | false =>
        rw [List.find?_cons_of_neg _ (by simpa using hb),
          List.find?_cons_of_neg _ (by simp [← hn, hb])]
        exact ih u ht

def c2State : CacheState :=
  ⟨[⟨audioFileName (get_cache_key "https://y/x"), 7, 1000⟩], []⟩

def c2Oracle : CdnOracle :=
  ⟨none, ⟨200, none⟩, .error "unused", .ok ⟨[("249", some "cdn://a")], some "T"⟩⟩

/-- Counterexample to claim C2: the code has no TTL-bounded metadata read.
With a cache entry written at time 1000 and read at time 4601 (age 3601 s
> 3600 s), `/down` still treats the entry as present (`cached = true`)
instead of treating it as a miss, and the payload it returns comes from a
fresh extractor invocation rather than from any stored entry. -/
theorem c2_counterexample :
    (∀ f ∈ c2State.cacheDir, 4601 - f.mtime > 3600) ∧
    get_cdn_link c2Oracle (some "https://y/x") none c2State =
      (200, .yt "cdn://a" true (some "T")) := by
  constructor
  · decide
  · decide

/-- Claim C2 as amended: there is no TTL and no stored metadata payload.
The `/down` read depends only on which file names are present in the
audio cache dir — entries of any age are treated identically — and on the
YouTube path it reports `cached` as bare file presence while the returned
link always comes from a fresh extraction. -/
theorem c2_amended_no_ttl :
    (∀ o url title s1 s2,
        s1.cacheDir.map FileEntry.name = s2.cacheDir.map FileEntry.name →
        get_cdn_link o url title s1 = get_cdn_link o url title s2) ∧
    (∀ o u s info fid audioUrl,
        pyIn "spotify.com" u = false → is_kick_url u = false →
        o.ytInfo = .ok info →
        info.formats.find? (fun f => f.1 == "249") = some (fid, some audioUrl) →
        get_cdn_link o (some u) none s =
          (200, .yt audioUrl
            ((findFile s.cacheDir (audioFileName (get_cache_key u))).isSome)
            info.title)) := by
  constructor
  · intro o url title s1 s2 h
    unfold get_cdn_link
    rcases hres : cdnResolveUrl o url title with e | vu
    · rfl
    · dsimp only
      rcases hsp : spotifyStep o.spotify vu with e | u
      · rfl
      · dsimp only
        cases hk : is_kick_url u with
        | true => simp [hk]
        | false =>
          simp only [hk, Bool.false_eq_true, if_false]
          unfold ytBranch
          rcases hyt : o.ytInfo with e | info
          · rfl
          · dsimp only
            rcases hfind : info.formats.find? (fun f => f.1 == "249")
              with _ | ⟨fid, _ | audioUrl⟩
            · rw [hfind]
            · rw [hfind]
            · rw [hfind]
              dsimp only
              rw [findFile_isSome_congr s1.cacheDir s2.cacheDir h]
  · intro o u s info fid audioUrl hsp hk hyt hfind
    simp [get_cdn_link, cdnResolveUrl, spotifyStep, ytBranch, pyTruthy, hsp, hk, hyt, hfind]

def c2StateLate : CacheState :=
  ⟨[⟨audioFileName (get_cache_key "https://y/x"), 9, 999999⟩], []⟩

theorem c2_amended_no_ttl_witness :
    get_cdn_link c2Oracle (some "https://y/x") none c2State =
      get_cdn_link c2Oracle (some "https://y/x") none c2StateLate ∧
    get_cdn_link c2Oracle (some "https://y/x") none c2State =
      (200, .yt "cdn://a"
        ((findFile c2State.cacheDir
          (audioFileName (get_cache_key "https://y/x"))).isSome) (some "T")) :=
  ⟨c2_amended_no_ttl.1 c2Oracle (some "https://y/x") none c2State c2StateLate rfl,
   c2_amended_no_ttl.2 c2Oracle "https://y/x" c2State ⟨[("249", some "cdn://a")], some "T"⟩
     "249" "cdn://a" (by decide) (by decide) rfl rfl⟩

/-! ## Claim C1 -/

/-- Callers counted by the extractor-invocation invariant: those that have
performed their extractor call (program counter at or past `toPublish`). -/
def daCount (pcs : List DAPc) : Nat :=
  pcs.countP (fun pc => pc == DAPc.toPublish || pc == DAPc.donePublished)

def daCountOne (pc : DAPc) : Nat :=
  if pc == DAPc.toPublish || pc == DAPc.donePublished then 1 else 0

theorem daCount_cons (a : DAPc) (l : List DAPc) :
    daCount (a :: l) = daCount l + daCountOne a := by
  simp [daCount, daCountOne, List.countP_cons]

theorem daCount_set_shift (l : List DAPc) (i : Nat) (v pc : DAPc)
    (h : l.get? i = some pc) :
    daCount (l.set i v) + daCountOne pc = daCount l + daCountOne v := by
  induction l generalizing i with
  | nil => simp at h
  | cons a t ih =>
    cases i with
    | zero =>
      simp only [List.get?_cons_zero, Option.some.injEq] at h
      subst h
      simp only [List.set_cons_zero, daCount_cons]
      omega
    | succ j =>
      simp only [List.get?_cons_succ] at h
      simp only [List.set_cons_succ, daCount_cons]
      have := ih j h
      omega

theorem daStep_calls (s : DAState) (i : Nat)
    (h : s.extractorCalls = daCount s.pcs) :
    (daStep s i).extractorCalls = daCount (daStep s i).pcs := by
  unfold daStep
  cases hg : s.pcs.get? i with
  | none => exact h
  | some pc =>
    cases pc with
    | start =>
      have hs := daCount_set_shift s.pcs i
        (if s.cachePresent then DAPc.doneHit else DAPc.toExtract) DAPc.start hg
      have h1 : daCountOne DAPc.start = 0 := rfl
      have h2 : daCountOne (if s.cachePresent then DAPc.doneHit else DAPc.toExtract) = 0 := by
        by_cases hc : s.cachePresent <;> simp [hc, daCountOne]
      dsimp only
      omega
    | toExtract =>
      have hs := daCount_set_shift s.pcs i DAPc.toPublish DAPc.toExtract hg
      have h1 : daCountOne DAPc.toExtract = 0 := rfl
      have h2 : daCountOne DAPc.toPublish = 1 := rfl
      dsimp only
      omega
    | toPublish =>
      have hs := daCount_set_shift s.pcs i DAPc.donePublished DAPc.toPublish hg
      have h1 : daCountOne DAPc.toPublish = 1 := rfl
      have h2 : daCountOne DAPc.donePublished = 1 := rfl
      dsimp only
      omega
    | doneHit => exact h
    | donePublished => exact h

theorem daStep_length (s : DAState) (i : Nat) :
    (daStep s i).pcs.length = s.pcs.length := by
  unfold daStep
  cases hg : s.pcs.get? i with
  | none => rfl
  | some pc => cases pc <;> simp [List.length_set]

theorem daRun_calls (sched : List Nat) (s : DAState)
    (h : s.extractorCalls = daCount s.pcs) :
    (daRun sched s).extractorCalls = daCount (daRun sched s).pcs := by
  induction sched generalizing s with
  | nil => simpa [daRun] using h
  | cons i rest ih =>
    have : daRun (i :: rest) s = daRun rest (daStep s i) := rfl
    rw [this]
    exact ih (daStep s i) (daStep_calls s i h)

theorem daRun_length (sched : List Nat) (s : DAState) :
    (daRun sched s).pcs.length = s.pcs.length := by
  induction sched generalizing s with
  | nil => rfl
  | cons i rest ih =>
    have : daRun (i :: rest) s = daRun rest (daStep s i) := rfl
    rw [this, ih (daStep s i), daStep_length]

theorem daCount_replicate_start (n : Nat) :
    daCount (List.replicate n DAPc.start) = 0 := by
  induction n with
  | zero => rfl
  | succ k ih =>
    unfold daCount at ih ⊢
    rw [List.replicate_succ, List.countP_cons]
    simp [ih]

/-- Counterexample to claim C1: neither `download_audio` nor
`download_video` holds a per-key lock, and later arrivals do not join an
in-flight download (the machine models the check/extract/publish step
structure both functions share). In the interleaving where both of two
concurrent callers pass the cache-miss check before either publishes,
both callers run to completion and the external extractor is invoked
twice, not exactly once. -/
theorem c1_counterexample :
    (daRun [0, 1, 0, 0, 1, 1] (daInit 2)).pcs =
      [DAPc.donePublished, DAPc.donePublished] ∧
    (daRun [0, 1, 0, 0, 1, 1] (daInit 2)).extractorCalls = 2 := by
  constructor <;> rfl

/-- Claim C1 as amended, for both variants: with no production-slot
coordination, each of the N concurrent callers may invoke the extractor
itself, so the extractor is invoked at most N times (not exactly once)
under every interleaving of the shared step structure; each caller whose
`download_audio` or `download_video` fetch succeeds still receives the
same canonical cached path for its variant, a deterministic function of
the key. -/
theorem c1_amended_no_single_flight :
    (∀ sched n, (daRun sched (daInit n)).extractorCalls ≤ n) ∧
    (∀ extract o rf now url s p,
        (download_audio extract o rf now url s).outcome = .ok p →
        p = audioCachedPath (get_cache_key url)) ∧
    (∀ extract o rf now url s p,
        (download_video extract o rf now url s).outcome = .ok p →
        p = videoCachedPath (video_cache_key url)) := by
  refine ⟨?_, ?_, ?_⟩
  · intro sched n
    have h0 : (daInit n).extractorCalls = daCount (daInit n).pcs := by
      simp [daInit, daCount_replicate_start]
    have hc := daRun_calls sched (daInit n) h0
    have hl := daRun_length sched (daInit n)
    have hn : (daInit n).pcs.length = n := by simp [daInit]
    have hb : daCount (daRun sched (daInit n)).pcs ≤
        (daRun sched (daInit n)).pcs.length := by
      unfold daCount
      exact List.countP_le_length _
    omega
  · intro extract o rf now url s p hp
    exact download_audio_ok_path extract o rf now url s p hp
  · intro extract o rf now url s p hp
    exact download_video_ok_path extract o rf now url s p hp

theorem c1_amended_no_single_flight_witness :
    (daRun [0, 1] (daInit 2)).extractorCalls ≤ 2 ∧
    audioCachedPath (get_cache_key "u") = audioCachedPath (get_cache_key "u") ∧
    videoCachedPath (video_cache_key "u") = videoCachedPath (video_cache_key "u") :=
  ⟨c1_amended_no_single_flight.1 [0, 1] 2,
   c1_amended_no_single_flight.2.1 (.ok 3) ⟨true, true, true⟩ (fun _ => false) 0 "u"
     ⟨[], []⟩ (audioCachedPath (get_cache_key "u")) rfl,
   c1_amended_no_single_flight.2.2 (.ok 3) ⟨true, true, true, true, 0, true⟩
     (fun _ => false) 0 "u" ⟨[], []⟩ (videoCachedPath (video_cache_key "u")) rfl⟩
